import Mathlib

/-!
# Verification of the UART bridge node (cpp_uartbridge)

Shallow embedding of `src/cpp_uartbridge/src/uart_bridge_node.cpp` and proofs
about it.  The serial device driver and the messaging runtime are external
collaborators; they enter the model as explicit inputs (byte availability,
raw line contents, open/closed status, driver open outcome), while the node's
own logic (string cleanup, the publish path, the timer tick, the service
wait loop, name resolution, the timer-period computation) is translated
directly from the source.
-/

namespace UartBridge

/-- Model of `UartBridge::cleanupMessage` (uart_bridge_node.cpp lines 153-158):
first erase-remove of every `'\n'`, then erase-remove of every `'\r'`. -/
def cleanupMessage (data : String) : String :=
  ⟨(data.data.filter (fun c => c != '\n')).filter (fun c => c != '\r')⟩

/-- Effects of `UartBridge::publishFromPort` (lines 159-172), given the raw
line the driver's `readline` produced: the cleaned text is published to the
topic and also returned to the caller. -/
structure PublishResult where
  published : String
  returned : String
  deriving DecidableEq, Repr

/-- Model of `UartBridge::publishFromPort` (lines 159-172): read one raw line, run
`cleanupMessage` on it, publish the cleaned text, return the cleaned text. -/
def publishFromPort (rawLine : String) : PublishResult :=
  let data := cleanupMessage rawLine
  ⟨data, data⟩

/-- Topic-name resolution in the constructor (lines 101-104): the configured
`topicName` is replaced by `port ++ "_in"` exactly when it equals the literal
default `"/dev/ttyUSB0_in"` while `port` differs from `"/dev/ttyUSB0"`. -/
def resolveTopicName (port topicName : String) : String :=
  if topicName = "/dev/ttyUSB0_in" ∧ port ≠ "/dev/ttyUSB0" then
    port ++ "_in"
  else
    topicName

/-- Service-name resolution in the constructor (lines 106-109): the configured
`serviceName` is replaced by `port ++ "_service"` exactly when it equals the
literal default `"/dev/ttyUSB0_service"` while `port` differs from
`"/dev/ttyUSB0"`. -/
def resolveServiceName (port serviceName : String) : String :=
  if serviceName = "/dev/ttyUSB0_service" ∧ port ≠ "/dev/ttyUSB0" then
    port ++ "_service"
  else
    serviceName

/-- The character predicate that survives `cleanupMessage`:
neither carriage return nor line feed. -/
def keepChar (c : Char) : Bool := !(c == '\r' || c == '\n')

theorem cleanupMessage_data (s : String) :
    (cleanupMessage s).data = s.data.filter keepChar := by
  show (s.data.filter (fun c => c != '\n')).filter (fun c => c != '\r')
      = s.data.filter keepChar
  rw [List.filter_filter]
  refine List.filter_congr ?_
  intro c _
  simp [keepChar, bne, Bool.not_or, Bool.and_comm]

theorem cleanupMessage_idem_aux (l : List Char) :
    (l.filter keepChar).filter keepChar = l.filter keepChar := by
  induction l with
  | nil => rfl
  | cons c t ih =>
      by_cases h : keepChar c
      · simp [List.filter, h, ih]
      · simp [List.filter_cons, h, ih]

theorem cleanupMessage_of_data (s : String) :
    cleanupMessage s = ⟨s.data.filter keepChar⟩ := by
  have h := cleanupMessage_data s
  cases hc : cleanupMessage s with
  | mk d =>
      have : d = s.data.filter keepChar := by
        simpa [hc] using h
      simp [this]

/-- Effects of one `UartBridge::timer_callback` tick (lines 174-192). -/
structure TickEffects where
  warned : Bool
  published : List String
  reconnectAttempted : Bool
  deriving DecidableEq, Repr

/-- Model of `UartBridge::timer_callback` (lines 174-192), as a function of what the
driver reports on this tick: `isOpen` and `available` are the driver's
answers, `rawLine` is what `readline` would return if called now.  The
closed-port branch only logs a warning (the `// reopen port` comment is dead:
no reconnection code exists) and does not return, so the availability check
runs regardless of the port status. -/
def timer_callback (isOpen : Bool) (available : Nat) (rawLine : String) :
    TickEffects :=
  let warned := !isOpen
  if available > 0 then
    ⟨warned, [(publishFromPort rawLine).published], false⟩
  else
    ⟨warned, [], false⟩

/-- One iteration point of the service wait loop: `elapsed` is the value of
`system_clock::now() - begin` in milliseconds when the loop condition is
checked, `available` is what `serialPortObject->available()` would report,
and `rawLine` is what `readline` would return if called now. -/
structure PollObs where
  elapsed : Nat
  available : Nat
  rawLine : String
  deriving DecidableEq, Repr

/-- The `while` loop of `UartBridge::service_callback` (lines 202-217):
while `now <= begin + answerTimeout`, poll `available()`; on first data,
`publishFromPort` and break with that cleaned text as `answer`; otherwise
keep `answer = ""` and continue.  Returns the final `answer` together with
the list of messages published during the loop.  An exhausted trace models
an invocation observed only so far (no data seen yet). -/
def serviceLoop (answerTimeout : Nat) : List PollObs → String × List String
  | [] => ("", [])
  | o :: rest =>
    if o.elapsed ≤ answerTimeout then
      if o.available > 0 then
        let pr := publishFromPort o.rawLine
        (pr.returned, [pr.published])
      else
        serviceLoop answerTimeout rest
    else
      ("", [])

/-- Result of one `UartBridge::service_callback` invocation. -/
structure ServiceResult where
  response : String
  published : List String
  deriving DecidableEq, Repr

/-- Model of `UartBridge::service_callback` (lines 196-226) after the request has been
written to the port: run the wait loop over the trace of poll observations;
if the final `answer` is non-empty it becomes the response, otherwise the
response is the sentinel `"OK"`. -/
def service_callback (answerTimeout : Nat) (trace : List PollObs) :
    ServiceResult :=
  let r := serviceLoop answerTimeout trace
  ⟨if r.1 ≠ "" then r.1 else "OK", r.2⟩

/-- Outcome of the external driver's `serial::Serial` constructor call. -/
inductive OpenResult where
  | success
  | ioException
  deriving DecidableEq, Repr

/-- Effects of `UartBridge::openSerialPort` (lines 137-151). -/
structure OpenEffects where
  diagnostic : Option String
  info : Option String
  aborted : Bool
  opened : Bool
  deriving DecidableEq, Repr

/-- The fixed text printed by `openSerialPort` when the driver throws
`serial::IOException` (line 147). -/
def openErrorText : String := "No Serial Port of that Name exists!"

/-- Model of `UartBridge::openSerialPort` (lines 137-151): on driver success, log an
info line naming port and baudrate and keep the handle; on
`serial::IOException`, print the fixed diagnostic and rethrow (`throw;`),
which aborts the constructor (`aborted = true`), so `rclcpp::spin` in `main`
is never reached. -/
def openSerialPort (port : String) (baud : Nat) (r : OpenResult) :
    OpenEffects :=
  match r with
  | .success =>
      ⟨none,
       some ("Serial Port " ++ port ++ " opened with Baudrate " ++ toString baud),
       false, true⟩
  | .ioException => ⟨some openErrorText, none, true, false⟩

/-- Model of `int pollTimeout = 1000 / pollRate;` (line 110), with C++ semantics made
explicit: integer division by zero is undefined behaviour, modelled as
`none`. -/
def pollTimeoutComputation (pollRate : Int) : Option Int :=
  if pollRate = 0 then none else some (1000 / pollRate)

/-- The constructor (lines 79-120) computes the timer period from `pollRate`
unconditionally — there is no validation of `pollRate` anywhere between
reading the parameter (line 98) and the division (line 110), and the timer is
then created from the result (line 113). -/
def constructorTimerPeriod (pollRate : Int) : Option Int :=
  pollTimeoutComputation pollRate

/-- Modelled from the spec: the boundary contract of §6 says "published text
has trailing `\r` and `\n` bytes stripped; no other transformation".  This
definition follows those words (strip only the trailing run of `'\r'`/`'\n'`
characters), to be compared with the behaviour translated from the source. -/
def stripTrailingCRLF (s : String) : String :=
  ⟨(s.data.reverse.dropWhile (fun c => c == '\r' || c == '\n')).reverse⟩

theorem serviceLoop_no_data (T : Nat) (trace : List PollObs)
    (h : ∀ p ∈ trace, p.available = 0) :
    serviceLoop T trace = ("", []) := by
  induction trace with
  | nil => rfl
  | cons p ps ih =>
      have h0 := h p (by simp)
      by_cases ht : p.elapsed ≤ T
      · simp only [serviceLoop, ht, if_true, h0]
        exact ih (fun q hq => h q (by simp [hq]))
      · simp [serviceLoop, ht]

theorem serviceLoop_first_data (T : Nat) (pre : List PollObs) (o : PollObs)
    (rest : List PollObs)
    (hpre : ∀ p ∈ pre, p.elapsed ≤ T ∧ p.available = 0)
    (ht : o.elapsed ≤ T) (ha : 0 < o.available) :
    serviceLoop T (pre ++ o :: rest)
      = (cleanupMessage o.rawLine, [cleanupMessage o.rawLine]) := by
  induction pre with
  | nil => simp [serviceLoop, ht, ha, publishFromPort]
  | cons p ps ih =>
      obtain ⟨h1, h2⟩ := hpre p (by simp)
      simp only [List.cons_append, serviceLoop, h1, if_true, h2]
      exact ih (fun q hq => hpre q (by simp [hq]))

/-- C4: for every input string, `cleanupMessage` removes exactly the carriage
returns and line feeds wherever they occur (its output is the filter of the
input keeping every other character, which also preserves the relative order
of the kept characters), and it is idempotent. -/
theorem cleanupMessage_filters_crlf_and_idem (s : String) :
    (cleanupMessage s).data = s.data.filter (fun c => !(c == '\r' || c == '\n')) ∧
    cleanupMessage (cleanupMessage s) = cleanupMessage s := by
  constructor
  · exact cleanupMessage_data s
  · rw [cleanupMessage_of_data (cleanupMessage s), cleanupMessage_data s,
      cleanupMessage_idem_aux, ← cleanupMessage_of_data]

/-- C5 counterexample: for the raw line `"a\rb\n"` the published text is
`"ab"` — the interior carriage return is removed too — while stripping only
the trailing `'\r'`/`'\n'` run would give `"a\rb"`.  The published text is
therefore not the raw line with only trailing bytes stripped. -/
theorem published_not_trailing_strip_cex :
    (publishFromPort "a\rb\n").published = "ab" ∧
    stripTrailingCRLF "a\rb\n" = "a\rb" ∧
    (publishFromPort "a\rb\n").published ≠ stripTrailingCRLF "a\rb\n" := by
  refine ⟨rfl, rfl, by decide⟩

/-- C5 (amended): the text published for a line read from the device is the
raw line with every `'\r'` and `'\n'` removed, wherever they occur; all other
characters are preserved in relative order, and the same cleaned text is also
what the read path returns to its caller. -/
theorem published_removes_all_crlf (rawLine : String) :
    (publishFromPort rawLine).published.data
        = rawLine.data.filter (fun c => !(c == '\r' || c == '\n')) ∧
    (publishFromPort rawLine).returned = (publishFromPort rawLine).published :=
  ⟨cleanupMessage_data rawLine, rfl⟩

/-- C2: if the device reports no available data at every check of the wait
loop, the Coordinator exits the loop and responds with exactly the sentinel
`"OK"`, publishing nothing. -/
theorem service_timeout_returns_sentinel (T : Nat) (trace : List PollObs)
    (h : ∀ p ∈ trace, p.available = 0) :
    (service_callback T trace).response = "OK" ∧
    (service_callback T trace).published = [] := by
  constructor
  · simp [service_callback, serviceLoop_no_data T trace h]
  · simp [service_callback, serviceLoop_no_data T trace h]

theorem service_timeout_returns_sentinel_witness :
    (∀ p ∈ ([⟨0, 0, ""⟩, ⟨1000, 0, ""⟩, ⟨2001, 0, ""⟩] : List PollObs),
        p.available = 0) ∧
    (service_callback 2000 [⟨0, 0, ""⟩, ⟨1000, 0, ""⟩, ⟨2001, 0, ""⟩]).response
        = "OK" ∧
    (service_callback 2000 [⟨0, 0, ""⟩, ⟨1000, 0, ""⟩, ⟨2001, 0, ""⟩]).published
        = [] :=
  ⟨by decide, service_timeout_returns_sentinel 2000 _ (by decide)⟩

/-- C1 counterexample: the device makes data available at elapsed time 0,
strictly before the 2000 ms timeout, but the reply cleans to the empty
string, and the Coordinator answers with the sentinel `"OK"` instead of the
cleaned text of the reply. -/
theorem service_empty_reply_cex :
    (service_callback 2000 [⟨0, 1, "\r\n"⟩]).response = "OK" ∧
    cleanupMessage "\r\n" = "" ∧
    (service_callback 2000 [⟨0, 1, "\r\n"⟩]).response ≠ cleanupMessage "\r\n" := by
  refine ⟨rfl, rfl, by decide⟩

/-- C1 (amended): if the device makes data available strictly before the
timeout elapses (after checks that all saw no data within the window), the
Coordinator returns the cleaned text of that reply — provided that cleaned
text is non-empty; a reply that cleans to the empty string yields the
sentinel `"OK"` instead. -/
theorem service_returns_cleaned_reply (T : Nat) (pre : List PollObs)
    (o : PollObs) (rest : List PollObs)
    (hpre : ∀ p ∈ pre, p.elapsed ≤ T ∧ p.available = 0)
    (ht : o.elapsed < T) (ha : 0 < o.available)
    (hne : cleanupMessage o.rawLine ≠ "") :
    (service_callback T (pre ++ o :: rest)).response
      = cleanupMessage o.rawLine := by
  have h := serviceLoop_first_data T pre o rest hpre (le_of_lt ht) ha
  simp [service_callback, h, hne]

theorem service_returns_cleaned_reply_witness :
    (∀ p ∈ ([] : List PollObs), p.elapsed ≤ 2000 ∧ p.available = 0) ∧
    (0 : Nat) < 2000 ∧ (0 : Nat) < 1 ∧ cleanupMessage "PONG\r\n" ≠ "" ∧
    (service_callback 2000 [⟨0, 1, "PONG\r\n"⟩]).response
        = cleanupMessage "PONG\r\n" :=
  ⟨by simp, by decide, by decide, by decide,
   service_returns_cleaned_reply 2000 [] ⟨0, 1, "PONG\r\n"⟩ []
     (by simp) (by decide) (by decide) (by decide)⟩

/-- C9 counterexample: data arrives before the timeout and the reply line is
read and published (as the empty cleaned line), but the service response is
the sentinel `"OK"`, not the text of the published line event — the reply is
not delivered both ways. -/
theorem service_publish_without_response_cex :
    (service_callback 1000 [⟨5, 2, "\n"⟩]).published = [""] ∧
    (service_callback 1000 [⟨5, 2, "\n"⟩]).response = "OK" ∧
    (service_callback 1000 [⟨5, 2, "\n"⟩]).response ≠ "" := by
  refine ⟨rfl, rfl, by decide⟩

/-- C9 (amended): when data becomes available before the timeout, the reply
line is read and published exactly as a Poller tick reading the same line
would publish it, the wait loop terminates immediately on that first data
(exactly one line is published), and the cleaned text is delivered as the
service response when it is non-empty; when it is empty the response is the
sentinel `"OK"` while the empty line event is still published. -/
theorem service_reads_publishes_and_stops (T : Nat) (pre : List PollObs)
    (o : PollObs) (rest : List PollObs)
    (hpre : ∀ p ∈ pre, p.elapsed ≤ T ∧ p.available = 0)
    (ht : o.elapsed ≤ T) (ha : 0 < o.available) :
    (service_callback T (pre ++ o :: rest)).published
        = (timer_callback true o.available o.rawLine).published ∧
    (service_callback T (pre ++ o :: rest)).published
        = [(publishFromPort o.rawLine).published] ∧
    (service_callback T (pre ++ o :: rest)).response
        = (if cleanupMessage o.rawLine = "" then "OK"
           else cleanupMessage o.rawLine) := by
  have h := serviceLoop_first_data T pre o rest hpre ht ha
  refine ⟨?_, ?_, ?_⟩
  · simp [service_callback, h, timer_callback, ha, publishFromPort]
  · simp [service_callback, h, publishFromPort]
  · by_cases hne : cleanupMessage o.rawLine = ""
    · simp [service_callback, h, hne]
    · simp [service_callback, h, hne]

theorem service_reads_publishes_and_stops_witness :
    (∀ p ∈ ([] : List PollObs), p.elapsed ≤ 2000 ∧ p.available = 0) ∧
    (10 : Nat) ≤ 2000 ∧ (0 : Nat) < 1 ∧
    ((service_callback 2000 [⟨10, 1, "hello\r\n"⟩]).published
        = (timer_callback true 1 "hello\r\n").published ∧
     (service_callback 2000 [⟨10, 1, "hello\r\n"⟩]).published
        = [(publishFromPort "hello\r\n").published] ∧
     (service_callback 2000 [⟨10, 1, "hello\r\n"⟩]).response
        = (if cleanupMessage "hello\r\n" = "" then "OK"
           else cleanupMessage "hello\r\n")) :=
  ⟨by simp, by decide, by decide,
   service_reads_publishes_and_stops 2000 [] ⟨10, 1, "hello\r\n"⟩ []
     (by simp) (by decide) (by decide)⟩

/-- C7 counterexample: on a tick where the driver reports the port closed but
one byte available, the tick warns and still reads and publishes a line
event — the closed branch does not end the tick. -/
theorem closed_tick_still_publishes_cex :
    (timer_callback false 1 "x\r\n").warned = true ∧
    (timer_callback false 1 "x\r\n").published = ["x"] := by
  refine ⟨rfl, rfl⟩

/-- C7 (amended): on a tick where the connection reports closed, the Poller
emits a warning and never attempts reconnection; it produces no line event
only when the driver also reports no bytes available — the closed check does
not by itself prevent reading and publishing. -/
theorem closed_tick_warns_no_reconnect (available : Nat) (rawLine : String)
    (h : available = 0) :
    (timer_callback false available rawLine).warned = true ∧
    (timer_callback false available rawLine).published = [] ∧
    (timer_callback false available rawLine).reconnectAttempted = false := by
  subst h
  exact ⟨rfl, rfl, rfl⟩

theorem closed_tick_warns_no_reconnect_witness :
    (0 : Nat) = 0 ∧
    ((timer_callback false 0 "").warned = true ∧
     (timer_callback false 0 "").published = [] ∧
     (timer_callback false 0 "").reconnectAttempted = false) :=
  ⟨rfl, closed_tick_warns_no_reconnect 0 "" rfl⟩

/-- C8 counterexample: when opening port `"/dev/ttyUSB0"` fails, the printed
diagnostic is the fixed text `"No Serial Port of that Name exists!"`, which
does not contain the configured device path as a substring. -/
theorem open_diagnostic_omits_port_cex :
    (openSerialPort "/dev/ttyUSB0" 115200 .ioException).diagnostic
        = some openErrorText ∧
    ¬ ("/dev/ttyUSB0".data <:+: openErrorText.data) := by
  refine ⟨rfl, by decide⟩

/-- C8 (amended): an open failure at startup is fatal — the exception is
rethrown out of the constructor, so the node is never spun and the
Poller/Coordinator never run — and a fixed human-readable diagnostic is
produced; that diagnostic does not name the configured device path. -/
theorem open_failure_fatal (port : String) (baud : Nat) :
    (openSerialPort port baud .ioException).aborted = true ∧
    (openSerialPort port baud .ioException).diagnostic = some openErrorText ∧
    (openSerialPort port baud .ioException).opened = false :=
  ⟨rfl, rfl, rfl⟩

/-- C6: with `pollRate = 0`, the constructor does not reject the
configuration; it evaluates `1000 / pollRate` with a zero divisor (undefined
behaviour in C++, modelled as `none`) on the way to creating the timer. -/
theorem pollRate_zero_division : constructorTimerPeriod 0 = none := rfl

/-- C10: a configured `topicName` equal to the literal default
`"/dev/ttyUSB0_in"` together with a port different from `"/dev/ttyUSB0"` is
silently replaced by `port ++ "_in"`, and likewise a `serviceName` equal to
`"/dev/ttyUSB0_service"` is replaced by `port ++ "_service"`. -/
theorem default_names_overridden (port : String) (h : port ≠ "/dev/ttyUSB0") :
    resolveTopicName port "/dev/ttyUSB0_in" = port ++ "_in" ∧
    resolveServiceName port "/dev/ttyUSB0_service" = port ++ "_service" := by
  constructor
  · simp [resolveTopicName, h]
  · simp [resolveServiceName, h]

theorem default_names_overridden_witness :
    ("/dev/ttyACM0" : String) ≠ "/dev/ttyUSB0" ∧
    (resolveTopicName "/dev/ttyACM0" "/dev/ttyUSB0_in" = "/dev/ttyACM0" ++ "_in" ∧
     resolveServiceName "/dev/ttyACM0" "/dev/ttyUSB0_service"
        = "/dev/ttyACM0" ++ "_service") :=
  ⟨by decide, default_names_overridden "/dev/ttyACM0" (by decide)⟩

end UartBridge
